import Mathlib

/-!
# Verification of the Token Authority (refresh-token lifecycle)

Shallow embedding of the refresh-token lifecycle of `server/server.go`
(`GenerateRefreshToken`, `ValidateRefreshToken`, `RevokeRefreshToken`)
together with the Redis cache collaborator (`datastore` RedisClient:
`Set`/`Get`/`Del`).

Modelling conventions:

* A compact JWT string is modelled by the abstract `Token` structure: the
  declared header algorithm, the decoded claim map, and the symmetric key
  under which the HMAC signature verifies.  The compact encoding is
  injective, so token-string equality (the `storedToken != tokenString`
  comparison in `ValidateRefreshToken`) is `Token` equality.
* JSON numbers are modelled exactly as `Int`.  (Go's `encoding/json`
  decodes a number into `float64`; for the magnitudes that occur here —
  user ids and unix timestamps below 2^53 — the round trip is exact.)
* Time is an `Int` of unix seconds, passed explicitly where the Go code
  calls `time.Now()`.
* The Redis collaborator is a store from string keys to (value, ttl)
  pairs plus an `up` flag modelling transport reachability: an operation
  errors at the transport level exactly when `up = false`.  Each cache
  call appends the `context.Context` value it was handed to `ctxLog`, so
  that which context reaches the collaborator is observable.
* `jwtParse` models `jwt.Parse` of golang-jwt/v5 with the key function of
  `ValidateRefreshToken`: the key function rejects any non-HMAC signing
  method, then the signature is verified against the configured secret,
  then the default claims validation runs (`exp` and `nbf` are checked
  when present, with zero leeway; `iat` is not checked by default).
-/

namespace AppServer

/-- Signing algorithm declared in a token header (`alg`). -/
inductive Alg where
  | HS256
  | HS384
  | HS512
  | RS256
  | ES256
  | EdDSA
  | noAlg
  deriving DecidableEq, Repr

/-- The `token.Method.(*jwt.SigningMethodHMAC)` type assertion of the key
function: exactly the HMAC family methods satisfy it. -/
def Alg.isHMAC : Alg → Bool
  | .HS256 => true
  | .HS384 => true
  | .HS512 => true
  | _ => false

/-- A decoded JSON claim value, as it appears in `jwt.MapClaims`
(a Go `map[string]interface{}`).  `str` is a JSON string, `num` a JSON
number (Go `float64` after decoding, modelled exactly), `other` any other
JSON value (bool, null, array, object). -/
inductive CVal where
  | str (s : String)
  | num (n : Int)
  | other
  deriving DecidableEq, Repr

/-- Abstract compact JWT: header algorithm, decoded claims, and the
symmetric key under which the signature verifies.  Stands for the signed
token string (the encoding is injective). -/
structure Token where
  alg : Alg
  claims : List (String × CVal)
  key : String
  deriving DecidableEq, Repr

/-- Claim lookup in a `jwt.MapClaims` map (keys are unique in a Go map;
first match in the association list). -/
def lookupClaim : List (String × CVal) → String → Option CVal
  | [], _ => none
  | (k, v) :: rest, key => if k = key then some v else lookupClaim rest key

/-- A Go `context.Context` value: either `context.Background()` or a
context supplied by a caller (identified abstractly). -/
inductive GoContext where
  | background
  | caller (id : Nat)
  deriving DecidableEq, Repr

/-- The Redis collaborator: stored entries (value and the ttl it was set
with), transport reachability, and the log of contexts handed to cache
calls. -/
structure Redis where
  entries : String → Option (Token × Int)
  up : Bool
  ctxLog : List GoContext

/-- `Client.Set(ctx, key, value, expiration)`: stores the value
(overwriting any prior entry) and returns a transport error exactly when
the client is unreachable. -/
def Redis.set (r : Redis) (ctx : GoContext) (k : String) (v : Token) (ttl : Int) :
    Except Unit Redis :=
  if r.up then
    .ok { entries := fun k2 => if k2 = k then some (v, ttl) else r.entries k2,
          up := r.up,
          ctxLog := r.ctxLog ++ [ctx] }
  else .error ()

/-- Error of `Client.Get`: `redis.Nil` on a missing key, or a transport
error. -/
inductive GetErr where
  | nilErr
  | transport
  deriving DecidableEq, Repr

/-- `Client.Get(ctx, key).Result()`: returns the stored value, `redis.Nil`
on a miss, a transport error when unreachable.  Never modifies the
entries. -/
def Redis.get (r : Redis) (ctx : GoContext) (k : String) :
    Except GetErr Token × Redis :=
  let r2 : Redis := { entries := r.entries, up := r.up, ctxLog := r.ctxLog ++ [ctx] }
  if r.up then
    match r.entries k with
    | some (v, _) => (.ok v, r2)
    | none => (.error .nilErr, r2)
  else (.error .transport, r2)

/-- `Client.Del(ctx, key)`: removes the key (deleting an absent key is not
an error; `DEL` just returns 0) and returns a transport error exactly when
the client is unreachable. -/
def Redis.del (r : Redis) (ctx : GoContext) (k : String) : Except Unit Redis :=
  if r.up then
    .ok { entries := fun k2 => if k2 = k then none else r.entries k2,
          up := r.up,
          ctxLog := r.ctxLog ++ [ctx] }
  else .error ()

/-- The configuration consumed by the refresh-token lifecycle:
`cfg.JWT.Secret` and `cfg.JWT.RefreshExpiry` (in days). -/
structure Config where
  secret : String
  refreshExpiry : Int
  deriving Repr

/-- `fmt.Sprintf("refresh_token:%d", userID)`. -/
def refreshKey (userID : Nat) : String := "refresh_token:" ++ toString userID

/-- Default `exp` validation of golang-jwt/v5 (`verifyExpiresAt`, zero
leeway): valid when absent, expired unless `now < exp`; a non-numeric
`exp` is a parsing error. -/
def expOK (cs : List (String × CVal)) (now : Int) : Bool :=
  match lookupClaim cs "exp" with
  | none => true
  | some (.num e) => decide (now < e)
  | some _ => false

/-- Default `nbf` validation of golang-jwt/v5 (`verifyNotBefore`, zero
leeway): valid when absent, not yet valid unless `nbf ≤ now`; a
non-numeric `nbf` is a parsing error. -/
def nbfOK (cs : List (String × CVal)) (now : Int) : Bool :=
  match lookupClaim cs "nbf" with
  | none => true
  | some (.num b) => decide (b ≤ now)
  | some _ => false

/-- Default claims validation of golang-jwt/v5 for `MapClaims`
(`iat` is not verified unless `WithIssuedAt()` is set, which it is not). -/
def claimsValid (cs : List (String × CVal)) (now : Int) : Bool :=
  expOK cs now && nbfOK cs now

/-- `jwt.Parse(tokenString, keyfunc)` with the key function of
`ValidateRefreshToken`: reject a non-HMAC signing method ("unexpected
signing method"), verify the signature against the configured secret,
then run the default claims validation.  `none` is any parse error. -/
def jwtParse (secret : String) (now : Int) (t : Token) : Option Token :=
  if t.alg.isHMAC = false then none
  else if t.key = secret then
    if claimsValid t.claims now then some t else none
  else none

/-- Error result of `GenerateRefreshToken` / `RevokeRefreshToken`: the
spec's `PersistenceError` (cache transport failure). -/
inductive GErr where
  | persistence
  deriving DecidableEq, Repr

/-- Error results of `ValidateRefreshToken`, one per return site:
`parse` = "invalid refresh token: %w" (any `jwt.Parse` failure),
`claimsType` = "invalid token claims" (the `MapClaims` type assertion;
unreachable with the default parser, kept for fidelity),
`tokenType` = "invalid token type",
`userId` = "invalid user ID in token",
`notFound` = "refresh token not found: %w",
`revoked` = "refresh token has been revoked". -/
inductive VErr where
  | parse
  | claimsType
  | tokenType
  | userId
  | notFound
  | revoked
  deriving DecidableEq, Repr

/-- The spec's `InvalidTokenError` bucket (malformed, mis-signed,
wrong-type, or expired token), as opposed to `NotFoundError` and
`RevokedError`. -/
def VErr.isInvalidTokenError : VErr → Bool
  | .parse => true
  | .claimsType => true
  | .tokenType => true
  | .userId => true
  | .notFound => false
  | .revoked => false

/-- The token built by `GenerateRefreshToken`: `jwt.New(SigningMethodHS256)`
with claims `user_id`, `exp = now + RefreshExpiry*24h`, `token_type =
"refresh"`, signed with the configured secret. -/
def genToken (cfg : Config) (userID : Nat) (now : Int) : Token :=
  { alg := .HS256,
    claims := [("user_id", .num (userID : Int)),
               ("exp", .num (now + cfg.refreshExpiry * 86400)),
               ("token_type", .str "refresh")],
    key := cfg.secret }

/-- `(*Server).GenerateRefreshToken(userID)`: sign the refresh token
(HMAC signing with a byte-slice key cannot fail), then store it in Redis
under `refresh_token:<userID>` with ttl `RefreshExpiry*24h`, using
`context.Background()`.  A failed cache write yields a `PersistenceError`
and no token string. -/
def GenerateRefreshToken (cfg : Config) (r : Redis) (userID : Nat) (now : Int) :
    Except GErr (Token × Redis) :=
  let tok := genToken cfg userID now
  match r.set .background (refreshKey userID) tok (cfg.refreshExpiry * 86400) with
  | .error _ => .error .persistence
  | .ok r2 => .ok (tok, r2)

/-- `(*Server).ValidateRefreshToken(tokenString)`: parse and verify with
the HMAC-only key function; check `token_type == "refresh"`; extract
`user_id` (a `float64` type assertion, then a conversion to `uint`);
look the key up in Redis with `context.Background()` (any error is
"refresh token not found"); compare the stored string to the presented
one ("refresh token has been revoked" on mismatch).  Returns the result
together with the (possibly read) collaborator state. -/
def ValidateRefreshToken (cfg : Config) (r : Redis) (now : Int) (tokenString : Token) :
    Except VErr Nat × Redis :=
  match jwtParse cfg.secret now tokenString with
  | none => (.error .parse, r)
  | some token =>
    match lookupClaim token.claims "token_type" with
    | some (.str tokenType) =>
      if tokenType = "refresh" then
        match lookupClaim token.claims "user_id" with
        | some (.num userIDFloat) =>
          let userID : Nat := userIDFloat.toNat
          match r.get .background (refreshKey userID) with
          | (.error _, r2) => (.error .notFound, r2)
          | (.ok storedToken, r2) =>
            if storedToken = tokenString then (.ok userID, r2)
            else (.error .revoked, r2)
        | _ => (.error .userId, r)
      else (.error .tokenType, r)
    | _ => (.error .tokenType, r)

/-- `(*Server).RevokeRefreshToken(userID)`: delete `refresh_token:<userID>`
from Redis with `context.Background()`; "failed to revoke refresh token"
(a `PersistenceError`) exactly on a transport-level delete failure. -/
def RevokeRefreshToken (cfg : Config) (r : Redis) (userID : Nat) : Except GErr Redis :=
  match r.del .background (refreshKey userID) with
  | .error _ => .error .persistence
  | .ok r2 => .ok r2

/-! Concrete instances used by the witness theorems. -/

/-- A concrete configuration: secret "topsecret", 30-day refresh ttl. -/
def cfg0 : Config := { secret := "topsecret", refreshExpiry := 30 }

/-- The empty cache store. -/
def emptyStore : String → Option (Token × Int) := fun _ => none

/-- A reachable Redis collaborator with an empty store. -/
def r0 : Redis := { entries := emptyStore, up := true, ctxLog := [] }

/-- An unreachable Redis collaborator (transport failures). -/
def rDown : Redis := { entries := emptyStore, up := false, ctxLog := [] }

/-- A signed, unexpired token shaped like an access token: no
`token_type` claim at all. -/
def accessShapedToken : Token :=
  { alg := .HS256,
    claims := [("user_id", .num 42), ("exp", .num 100)],
    key := "topsecret" }

/-- A correctly signed refresh token whose `exp` lies in the past. -/
def expiredToken : Token :=
  { alg := .HS256,
    claims := [("user_id", .num 42), ("exp", .num (-5)), ("token_type", .str "refresh")],
    key := "topsecret" }

/-- A token whose header declares a non-HMAC algorithm. -/
def rsaToken : Token :=
  { alg := .RS256,
    claims := [("user_id", .num 42), ("exp", .num 100), ("token_type", .str "refresh")],
    key := "attacker" }

/-! Helper lemmas about the generated token and the parser. -/

theorem genToken_alg (cfg : Config) (u : Nat) (n : Int) :
    (genToken cfg u n).alg = .HS256 := rfl

theorem genToken_key (cfg : Config) (u : Nat) (n : Int) :
    (genToken cfg u n).key = cfg.secret := rfl

theorem genToken_tokenType (cfg : Config) (u : Nat) (n : Int) :
    lookupClaim (genToken cfg u n).claims "token_type" = some (.str "refresh") := rfl

theorem genToken_userId (cfg : Config) (u : Nat) (n : Int) :
    lookupClaim (genToken cfg u n).claims "user_id" = some (.num (u : Int)) := rfl

theorem genToken_exp (cfg : Config) (u : Nat) (n : Int) :
    lookupClaim (genToken cfg u n).claims "exp" =
      some (.num (n + cfg.refreshExpiry * 86400)) := rfl

theorem genToken_claimsValid (cfg : Config) (u : Nat) (n m : Int) :
    claimsValid (genToken cfg u n).claims m = decide (m < n + cfg.refreshExpiry * 86400) := by
  simp [claimsValid, expOK, nbfOK, genToken, lookupClaim]

/-- Two generated tokens for the same user coincide exactly when they were
issued at the same instant (the `exp` claim differs otherwise). -/
theorem genToken_inj (cfg : Config) (u : Nat) (n1 n2 : Int)
    (h : genToken cfg u n1 = genToken cfg u n2) : n1 = n2 := by
  have h2 := congrArg (fun t => lookupClaim t.claims "exp") h
  simp [genToken_exp] at h2
  omega

theorem jwtParse_genToken (cfg : Config) (u : Nat) (n m : Int)
    (h : m < n + cfg.refreshExpiry * 86400) :
    jwtParse cfg.secret m (genToken cfg u n) = some (genToken cfg u n) := by
  simp [jwtParse, genToken_alg, genToken_key, Alg.isHMAC, genToken_claimsValid, h]

theorem jwtParse_of_valid (secret : String) (now : Int) (T : Token)
    (halg : T.alg.isHMAC = true) (hkey : T.key = secret)
    (hvalid : claimsValid T.claims now = true) :
    jwtParse secret now T = some T := by
  simp [jwtParse, halg, hkey, hvalid]

/-- An `exp` claim at or before `tv` makes default claims validation, and
hence the whole parse, fail — before anything else is looked at. -/
theorem jwtParse_none_of_expired (secret : String) (tv e : Int) (T : Token)
    (hexp : lookupClaim T.claims "exp" = some (.num e)) (hpast : e ≤ tv) :
    jwtParse secret tv T = none := by
  have hcv : claimsValid T.claims tv = false := by
    simp [claimsValid, expOK, hexp]
    omega
  simp [jwtParse, hcv]

/-- On a reachable collaborator, issuance succeeds and its exact effect is
one `Set` of `refresh_token:<u>` under `context.Background()`. -/
theorem generate_eq_of_up (cfg : Config) (r : Redis) (u : Nat) (now : Int) (h : r.up = true) :
    GenerateRefreshToken cfg r u now =
      .ok (genToken cfg u now,
           { entries := fun k2 => if k2 = refreshKey u then
               some (genToken cfg u now, cfg.refreshExpiry * 86400) else r.entries k2,
             up := r.up,
             ctxLog := r.ctxLog ++ [.background] }) := by
  simp [GenerateRefreshToken, Redis.set, h]

/-- On a reachable collaborator, revocation succeeds and its exact effect
is one `Del` of `refresh_token:<u>` under `context.Background()`. -/
theorem revoke_eq_of_up (cfg : Config) (r : Redis) (u : Nat) (h : r.up = true) :
    RevokeRefreshToken cfg r u =
      .ok { entries := fun k2 => if k2 = refreshKey u then none else r.entries k2,
            up := r.up,
            ctxLog := r.ctxLog ++ [.background] } := by
  simp [RevokeRefreshToken, Redis.del, h]

/-- Validation returns the collaborator either untouched (no cache call
was made) or with exactly one read logged: the entries are never
changed. -/
theorem validate_snd (cfg : Config) (r : Redis) (tv : Int) (T : Token) :
    (ValidateRefreshToken cfg r tv T).2 = r ∨
    (ValidateRefreshToken cfg r tv T).2 =
      { entries := r.entries, up := r.up, ctxLog := r.ctxLog ++ [GoContext.background] } := by
  rcases hp : jwtParse cfg.secret tv T with _ | token
  · left
    simp [ValidateRefreshToken, hp]
  · rcases htt : lookupClaim token.claims "token_type" with _ | c
    · left
      simp [ValidateRefreshToken, hp, htt]
    · rcases c with s | n | _
      · by_cases hs : s = "refresh"
        · subst hs
          rcases hui : lookupClaim token.claims "user_id" with _ | c2
          · left
            simp [ValidateRefreshToken, hp, htt, hui]
          · rcases c2 with s2 | nid | _
            · left
              simp [ValidateRefreshToken, hp, htt, hui]
            · right
              by_cases hu : r.up = true
              · rcases hent : r.entries (refreshKey nid.toNat) with _ | ⟨vt, vttl⟩
                · simp [ValidateRefreshToken, hp, htt, hui, Redis.get, hu, hent]
                · by_cases he : vt = T <;>
                    simp [ValidateRefreshToken, hp, htt, hui, Redis.get, hu, hent, he]
              · simp [ValidateRefreshToken, hp, htt, hui, Redis.get, hu]
            · left
              simp [ValidateRefreshToken, hp, htt, hui]
        · left
          simp [ValidateRefreshToken, hp, htt, hs]
      · left
        simp [ValidateRefreshToken, hp, htt]
      · left
        simp [ValidateRefreshToken, hp, htt]

/-! The claims. -/

/-- Claim C1 — round-trip issuance: for every user id `u` and every
starting cache state (reachable collaborator, positively configured
refresh ttl), `GenerateRefreshToken u` succeeds with a token `tok`, and
an immediate `ValidateRefreshToken tok` succeeds and returns exactly
`u`. -/
theorem C1_issue_then_validate (cfg : Config) (r : Redis) (u : Nat) (now : Int)
    (hup : r.up = true) (hpos : 0 < cfg.refreshExpiry) :
    ∃ tok r1, GenerateRefreshToken cfg r u now = .ok (tok, r1) ∧
      (ValidateRefreshToken cfg r1 now tok).1 = .ok u := by
  refine ⟨genToken cfg u now, _, generate_eq_of_up cfg r u now hup, ?_⟩
  have hlt : now < now + cfg.refreshExpiry * 86400 := by nlinarith
  simp [ValidateRefreshToken, jwtParse_genToken cfg u now now hlt, hup, Redis.get,
    genToken_tokenType, genToken_userId]

/-- Witness for C1: user 42 on an empty reachable cache at time 0. -/
theorem C1_issue_then_validate_witness :
    ∃ tok r1, GenerateRefreshToken cfg0 r0 42 0 = .ok (tok, r1) ∧
      (ValidateRefreshToken cfg0 r1 0 tok).1 = .ok 42 :=
  C1_issue_then_validate cfg0 r0 42 0 rfl (by decide)

/-- Claim C2 — at most one live refresh token per user id: after a second
issuance for `u` returns a new token `t2` (issued at a different instant,
so `t1 ≠ t2`), the still signature-valid and unexpired first token `t1`
fails validation with `RevokedError` while `t2` validates, and the cache
entry `refresh_token:<u>` has been overwritten with `t2`. -/
theorem C2_second_issue_supersedes (cfg : Config) (r : Redis) (u : Nat) (now1 now2 tv : Int)
    (hup : r.up = true) (hne : now1 ≠ now2)
    (h1 : tv < now1 + cfg.refreshExpiry * 86400)
    (h2 : tv < now2 + cfg.refreshExpiry * 86400) :
    ∃ t1 r1 t2 r2,
      GenerateRefreshToken cfg r u now1 = .ok (t1, r1) ∧
      GenerateRefreshToken cfg r1 u now2 = .ok (t2, r2) ∧
      t1 ≠ t2 ∧
      r2.entries (refreshKey u) = some (t2, cfg.refreshExpiry * 86400) ∧
      (ValidateRefreshToken cfg r2 tv t1).1 = .error .revoked ∧
      (ValidateRefreshToken cfg r2 tv t2).1 = .ok u := by
  have hgen1 := generate_eq_of_up cfg r u now1 hup
  set r1 : Redis :=
    { entries := fun k2 => if k2 = refreshKey u then
        some (genToken cfg u now1, cfg.refreshExpiry * 86400) else r.entries k2,
      up := r.up,
      ctxLog := r.ctxLog ++ [.background] } with hr1
  have hup1 : r1.up = true := hup
  have hgen2 := generate_eq_of_up cfg r1 u now2 hup1
  set r2 : Redis :=
    { entries := fun k2 => if k2 = refreshKey u then
        some (genToken cfg u now2, cfg.refreshExpiry * 86400) else r1.entries k2,
      up := r1.up,
      ctxLog := r1.ctxLog ++ [.background] } with hr2
  have hne2 : genToken cfg u now2 ≠ genToken cfg u now1 := by
    intro h
    exact hne (genToken_inj cfg u now2 now1 h).symm
  refine ⟨genToken cfg u now1, r1, genToken cfg u now2, r2, hgen1, hgen2, ?_, ?_, ?_, ?_⟩
  · intro h
    exact hne (genToken_inj cfg u now1 now2 h)
  · simp [hr2]
  · simp [ValidateRefreshToken, jwtParse_genToken cfg u now1 tv h1, hup, hr1, hr2, Redis.get,
      genToken_tokenType, genToken_userId, hne2]
  · simp [ValidateRefreshToken, jwtParse_genToken cfg u now2 tv h2, hup, hr1, hr2, Redis.get,
      genToken_tokenType, genToken_userId]

/-- Witness for C2: user 42, issuances at times 0 and 1, validation at
time 2. -/
theorem C2_second_issue_supersedes_witness :
    ∃ t1 r1 t2 r2,
      GenerateRefreshToken cfg0 r0 42 0 = .ok (t1, r1) ∧
      GenerateRefreshToken cfg0 r1 42 1 = .ok (t2, r2) ∧
      t1 ≠ t2 ∧
      r2.entries (refreshKey 42) = some (t2, cfg0.refreshExpiry * 86400) ∧
      (ValidateRefreshToken cfg0 r2 2 t1).1 = .error .revoked ∧
      (ValidateRefreshToken cfg0 r2 2 t2).1 = .ok 42 :=
  C2_second_issue_supersedes cfg0 r0 42 0 1 2 rfl (by decide) (by decide) (by decide)

/-- Claim C3 — revocation causes a cache miss: for every well-formed,
unexpired refresh token `T` for user `u` (HMAC-signed with the configured
secret, `token_type = "refresh"`, `user_id = u`, time claims valid),
`RevokeRefreshToken u` succeeds and a subsequent `ValidateRefreshToken T`
fails with `NotFoundError`, which is distinct from `RevokedError`. -/
theorem C3_revoke_then_validate (cfg : Config) (r : Redis) (u : Nat) (tv : Int) (T : Token)
    (hup : r.up = true)
    (halg : T.alg.isHMAC = true) (hkey : T.key = cfg.secret)
    (hvalid : claimsValid T.claims tv = true)
    (htt : lookupClaim T.claims "token_type" = some (.str "refresh"))
    (huid : lookupClaim T.claims "user_id" = some (.num (u : Int))) :
    ∃ r1, RevokeRefreshToken cfg r u = .ok r1 ∧
      r1.entries (refreshKey u) = none ∧
      (ValidateRefreshToken cfg r1 tv T).1 = .error .notFound ∧
      VErr.notFound ≠ VErr.revoked := by
  refine ⟨_, revoke_eq_of_up cfg r u hup, ?_, ?_, by simp⟩
  · simp
  · simp [ValidateRefreshToken, jwtParse_of_valid cfg.secret tv T halg hkey hvalid,
      htt, huid, Redis.get, hup]

/-- Witness for C3: the token issued for user 7 at time 0, revoked and
re-validated at time 0. -/
theorem C3_revoke_then_validate_witness :
    ∃ r1, RevokeRefreshToken cfg0 r0 7 = .ok r1 ∧
      r1.entries (refreshKey 7) = none ∧
      (ValidateRefreshToken cfg0 r1 0 (genToken cfg0 7 0)).1 = .error .notFound ∧
      VErr.notFound ≠ VErr.revoked :=
  C3_revoke_then_validate cfg0 r0 7 0 (genToken cfg0 7 0) rfl rfl rfl (by decide) rfl rfl

/-- Claim C4 — token-type gate: a token whose signature verifies and whose
time claims are valid, but whose `token_type` claim is absent, not a
string, or any string other than "refresh", fails with the
"invalid token type" error (an `InvalidTokenError`) for every cache
state, and the cache is left untouched. -/
theorem C4_token_type_gate (cfg : Config) (r : Redis) (tv : Int) (T : Token)
    (halg : T.alg.isHMAC = true) (hkey : T.key = cfg.secret)
    (hvalid : claimsValid T.claims tv = true)
    (htt : lookupClaim T.claims "token_type" ≠ some (.str "refresh")) :
    (ValidateRefreshToken cfg r tv T).1 = .error .tokenType ∧
    VErr.tokenType.isInvalidTokenError = true ∧
    (ValidateRefreshToken cfg r tv T).2 = r := by
  have hp := jwtParse_of_valid cfg.secret tv T halg hkey hvalid
  rcases hl : lookupClaim T.claims "token_type" with _ | c
  · simp [ValidateRefreshToken, hp, hl, VErr.isInvalidTokenError]
  · rcases c with s | n | _
    · have hs : s ≠ "refresh" := by
        intro h
        exact htt (h ▸ hl)
      simp [ValidateRefreshToken, hp, hl, hs, VErr.isInvalidTokenError]
    · simp [ValidateRefreshToken, hp, hl, VErr.isInvalidTokenError]
    · simp [ValidateRefreshToken, hp, hl, VErr.isInvalidTokenError]

/-- Witness for C4: a signed, unexpired access-shaped token with no
`token_type` claim. -/
theorem C4_token_type_gate_witness :
    (ValidateRefreshToken cfg0 r0 0 accessShapedToken).1 = .error .tokenType ∧
    VErr.tokenType.isInvalidTokenError = true ∧
    (ValidateRefreshToken cfg0 r0 0 accessShapedToken).2 = r0 :=
  C4_token_type_gate cfg0 r0 0 accessShapedToken rfl rfl (by decide) (by decide)

/-- Claim C5 — expiry independence from cache state: a token whose `exp`
claim is not in the future fails with the parse-stage `InvalidTokenError`
and produces the same result under any two cache states; the collaborator
is returned untouched, so the cache was never consulted. -/
theorem C5_expired_ignores_cache (cfg : Config) (r1 r2 : Redis) (tv e : Int) (T : Token)
    (hexp : lookupClaim T.claims "exp" = some (.num e)) (hpast : e ≤ tv) :
    (ValidateRefreshToken cfg r1 tv T).1 = .error .parse ∧
    (ValidateRefreshToken cfg r1 tv T).1 = (ValidateRefreshToken cfg r2 tv T).1 ∧
    (ValidateRefreshToken cfg r1 tv T).2 = r1 ∧
    VErr.parse.isInvalidTokenError = true := by
  have h := jwtParse_none_of_expired cfg.secret tv e T hexp hpast
  simp [ValidateRefreshToken, h, VErr.isInvalidTokenError]

/-- Witness for C5: a correctly signed refresh token with `exp = -5`,
validated at time 0 against an empty reachable cache and against an
unreachable one. -/
theorem C5_expired_ignores_cache_witness :
    (ValidateRefreshToken cfg0 r0 0 expiredToken).1 = .error .parse ∧
    (ValidateRefreshToken cfg0 r0 0 expiredToken).1 =
      (ValidateRefreshToken cfg0 rDown 0 expiredToken).1 ∧
    (ValidateRefreshToken cfg0 r0 0 expiredToken).2 = r0 ∧
    VErr.parse.isInvalidTokenError = true :=
  C5_expired_ignores_cache cfg0 r0 rDown 0 (-5) expiredToken (by decide) (by decide)

/-- Claim C6 — algorithm-substitution defense: a token whose header
declares a non-HMAC algorithm is rejected with the parse-stage
`InvalidTokenError` for every cache state, the cache is never accessed,
the result does not depend on the configured secret (the key is never
applied), and it does not depend on the token claims (no claim is
read). -/
theorem C6_non_hmac_rejected (cfg : Config) (r : Redis) (tv : Int) (T : Token)
    (halg : T.alg.isHMAC = false) :
    (ValidateRefreshToken cfg r tv T).1 = .error .parse ∧
    (ValidateRefreshToken cfg r tv T).2 = r ∧
    (∀ s1 s2 : String,
      (ValidateRefreshToken { cfg with secret := s1 } r tv T).1 =
        (ValidateRefreshToken { cfg with secret := s2 } r tv T).1) ∧
    (∀ cs : List (String × CVal),
      (ValidateRefreshToken cfg r tv { T with claims := cs }).1 = .error .parse) ∧
    VErr.parse.isInvalidTokenError = true := by
  simp [ValidateRefreshToken, jwtParse, halg, VErr.isInvalidTokenError]

/-- Witness for C6: an RS256-headed token. -/
theorem C6_non_hmac_rejected_witness :
    (ValidateRefreshToken cfg0 r0 0 rsaToken).1 = .error .parse ∧
    (ValidateRefreshToken cfg0 r0 0 rsaToken).2 = r0 ∧
    (∀ s1 s2 : String,
      (ValidateRefreshToken { cfg0 with secret := s1 } r0 0 rsaToken).1 =
        (ValidateRefreshToken { cfg0 with secret := s2 } r0 0 rsaToken).1) ∧
    (∀ cs : List (String × CVal),
      (ValidateRefreshToken cfg0 r0 0 { rsaToken with claims := cs }).1 = .error .parse) ∧
    VErr.parse.isInvalidTokenError = true :=
  C6_non_hmac_rejected cfg0 r0 0 rsaToken rfl

/-- Claim C7 — issuance is atomic with persistence: when the cache write
fails (unreachable collaborator), `GenerateRefreshToken` returns a
`PersistenceError` and no token string, even though signing succeeded. -/
theorem C7_write_failure_no_token (cfg : Config) (r : Redis) (u : Nat) (now : Int)
    (hdown : r.up = false) :
    GenerateRefreshToken cfg r u now = .error .persistence := by
  simp [GenerateRefreshToken, Redis.set, hdown]

/-- Witness for C7: user 42 against the unreachable collaborator. -/
theorem C7_write_failure_no_token_witness :
    GenerateRefreshToken cfg0 rDown 42 0 = .error .persistence :=
  C7_write_failure_no_token cfg0 rDown 42 0 rfl

/-- Claim C8 — revocation is idempotent: `RevokeRefreshToken` errors (with
a `PersistenceError`) exactly when the collaborator is unreachable; on a
reachable collaborator it succeeds even when the key is absent, and a
second revocation succeeds and leaves the stored entries exactly as after
the first. -/
theorem C8_revoke_idempotent (cfg : Config) (r : Redis) (u : Nat) :
    (r.up = false → RevokeRefreshToken cfg r u = .error .persistence) ∧
    (r.up = true → ∃ r1 r2,
      RevokeRefreshToken cfg r u = .ok r1 ∧
      r1.entries (refreshKey u) = none ∧
      RevokeRefreshToken cfg r1 u = .ok r2 ∧
      r2.entries = r1.entries) := by
  constructor
  · intro h
    simp [RevokeRefreshToken, Redis.del, h]
  · intro h
    refine ⟨_, _, revoke_eq_of_up cfg r u h, ?_, revoke_eq_of_up cfg _ u h, ?_⟩
    · simp
    · funext k2
      by_cases hk : k2 = refreshKey u <;> simp [hk]

/-- Witness for C8: user 5, against the unreachable collaborator and
against the empty reachable one (where the key is absent). -/
theorem C8_revoke_idempotent_witness :
    RevokeRefreshToken cfg0 rDown 5 = .error .persistence ∧
    (∃ r1 r2,
      RevokeRefreshToken cfg0 r0 5 = .ok r1 ∧
      r1.entries (refreshKey 5) = none ∧
      RevokeRefreshToken cfg0 r1 5 = .ok r2 ∧
      r2.entries = r1.entries) :=
  ⟨(C8_revoke_idempotent cfg0 rDown 5).1 rfl, (C8_revoke_idempotent cfg0 r0 5).2 rfl⟩

/-- Claim C9 — context pass-through, settled against the code: the claim
says each operation passes the caller-supplied context through to its
cache call, but the three methods take no context parameter at all and
construct `context.Background()` themselves; this theorem shows that the
context reaching every cache call is `GoContext.background`, whatever the
inputs. -/
theorem C9_background_context (cfg : Config) (r : Redis) (u : Nat) (now tv : Int) (T : Token)
    (hup : r.up = true) :
    (∀ tok r1, GenerateRefreshToken cfg r u now = .ok (tok, r1) →
      r1.ctxLog = r.ctxLog ++ [GoContext.background]) ∧
    (∀ r2, RevokeRefreshToken cfg r u = .ok r2 →
      r2.ctxLog = r.ctxLog ++ [GoContext.background]) ∧
    ((ValidateRefreshToken cfg r tv T).2.ctxLog = r.ctxLog ∨
      (ValidateRefreshToken cfg r tv T).2.ctxLog = r.ctxLog ++ [GoContext.background]) := by
  refine ⟨?_, ?_, ?_⟩
  · intro tok r1 hgen
    rw [generate_eq_of_up cfg r u now hup] at hgen
    injection hgen with h
    injection h with ha hb
    subst hb
    rfl
  · intro r2 hrev
    rw [revoke_eq_of_up cfg r u hup] at hrev
    injection hrev with h
    subst h
    rfl
  · rcases validate_snd cfg r tv T with h | h
    · left
      rw [h]
    · right
      rw [h]

/-- Witness for C9: user 42 on the empty reachable cache. -/
theorem C9_background_context_witness :
    (∀ tok r1, GenerateRefreshToken cfg0 r0 42 0 = .ok (tok, r1) →
      r1.ctxLog = r0.ctxLog ++ [GoContext.background]) ∧
    (∀ r2, RevokeRefreshToken cfg0 r0 42 = .ok r2 →
      r2.ctxLog = r0.ctxLog ++ [GoContext.background]) ∧
    ((ValidateRefreshToken cfg0 r0 0 (genToken cfg0 42 0)).2.ctxLog = r0.ctxLog ∨
      (ValidateRefreshToken cfg0 r0 0 (genToken cfg0 42 0)).2.ctxLog =
        r0.ctxLog ++ [GoContext.background]) :=
  C9_background_context cfg0 r0 42 0 0 (genToken cfg0 42 0) rfl

/-- Claim C10 — cache footprint: issuance and revocation for user `u`
leave every cache key other than `refresh_token:<u>` unchanged, and
validation never writes to the cache at all: the stored entries after
validation equal the entries before, whether it succeeds or fails. -/
theorem C10_cache_footprint (cfg : Config) (r : Redis) (u : Nat) (now tv : Int) (k : String)
    (T : Token) (hk : k ≠ refreshKey u) :
    (∀ tok r1, GenerateRefreshToken cfg r u now = .ok (tok, r1) → r1.entries k = r.entries k) ∧
    (∀ r2, RevokeRefreshToken cfg r u = .ok r2 → r2.entries k = r.entries k) ∧
    (ValidateRefreshToken cfg r tv T).2.entries = r.entries := by
  refine ⟨?_, ?_, ?_⟩
  · intro tok r1 hgen
    by_cases hu : r.up = true
    · rw [generate_eq_of_up cfg r u now hu] at hgen
      injection hgen with h
      injection h with ha hb
      subst hb
      simp [hk]
    · simp [GenerateRefreshToken, Redis.set, hu] at hgen
  · intro r2 hrev
    by_cases hu : r.up = true
    · rw [revoke_eq_of_up cfg r u hu] at hrev
      injection hrev with h
      subst h
      simp [hk]
    · simp [RevokeRefreshToken, Redis.del, hu] at hrev
  · rcases validate_snd cfg r tv T with h | h <;> rw [h]

/-- Witness for C10: operations for user 42 leave the key
"refresh_token:7" unchanged. -/
theorem C10_cache_footprint_witness :
    (∀ tok r1, GenerateRefreshToken cfg0 r0 42 0 = .ok (tok, r1) →
      r1.entries "refresh_token:7" = r0.entries "refresh_token:7") ∧
    (∀ r2, RevokeRefreshToken cfg0 r0 42 = .ok r2 →
      r2.entries "refresh_token:7" = r0.entries "refresh_token:7") ∧
    (ValidateRefreshToken cfg0 r0 0 (genToken cfg0 42 0)).2.entries = r0.entries :=
  C10_cache_footprint cfg0 r0 42 0 0 "refresh_token:7" (genToken cfg0 42 0) (by decide)

end AppServer
